import Mathlib

/-! # KEFinalWork front-end configuration

A shallow embedding of the two configuration sources of the front end:

* `src/ui/src/config/index.js` : the application configuration module
  (`API_CONFIG`, `UPLOAD_CONFIG`, `ANALYSIS_CONFIG`, `UI_CONFIG` and the
  aggregate default export);
* `src/ui/vue.config.js` : the build / dev-server descriptor.

JavaScript objects with a fixed shape become structures, objects used as
lookup tables (the colour maps, the proxy table, the alias table, the default
export) become association lists in source order, and `process.env` becomes a
lookup function from variable names to `string | undefined`.
-/

namespace KEFinalWork

/-! ## JavaScript primitives used by the two files -/

/-- The object `process.env`: each name is bound to a string or is `undefined`. -/
abbrev ProcessEnv := String → Option String

/-- JavaScript `ToBoolean` on a `string | undefined` value: `undefined` and the
empty string are falsy, every other string is truthy. -/
def truthy : Option String → Bool
  | none => false
  | some s => decide (s ≠ "")

/-- The expression `a || d` for `a : string | undefined` and a string `d`:
the left operand when it is truthy, the right operand otherwise. -/
def jsOr (a : Option String) (d : String) : String :=
  match a with
  | some s => if truthy (some s) then s else d
  | none => d

/-- Own-property lookup in an object literal given as its list of
`key: value` entries: the value written for `k` in the literal, `none` when the
literal has no entry for `k`. It is the value of `o[k]` at every own key of
`o`; at any other key `o[k]` goes on to the prototype chain (`toString`,
`constructor`, ...), which is not modelled, so `none` there does not mean that
`o[k]` is `undefined`. It is only read at own keys below. -/
def getOwnProp {α : Type} (o : List (String × α)) (k : String) : Option α :=
  match o with
  | [] => none
  | (k', v) :: rest => if k' = k then some v else getOwnProp rest k

/-- The own keys `Object.keys(o)` of an object literal, in source order. -/
def keys {α : Type} (o : List (String × α)) : List String :=
  o.map Prod.fst

/-! ## `src/ui/src/config/index.js` -/

/-- Shape of the object literal `API_CONFIG`. -/
structure ApiConfig where
  BASE_URL : String
  TIMEOUT : Nat
  IMAGE_ANALYSIS_TIMEOUT : Nat
  deriving DecidableEq, Repr

/-- Shape of the object literal `UPLOAD_CONFIG`. -/
structure UploadConfig where
  MAX_SIZE : Nat
  ACCEPTED_TYPES : List String
  ACCEPTED_EXTENSIONS : List String
  deriving DecidableEq, Repr

/-- Shape of the object literal `ANALYSIS_CONFIG`. -/
structure AnalysisConfig where
  DEFAULT_CONFIDENCE_THRESHOLD : ℚ
  DEFAULT_ANALYSIS_TYPE : String
  PROGRESS_UPDATE_INTERVAL : Nat
  deriving DecidableEq, Repr

/-- Shape of the object literal `UI_CONFIG`: two colour tables. -/
structure UiConfig where
  ENTITY_TYPE_COLORS : List (String × String)
  RISK_LEVEL_COLORS : List (String × String)
  deriving DecidableEq, Repr

/-- `export const API_CONFIG` (index.js, lines 6-10). -/
def API_CONFIG (env : ProcessEnv) : ApiConfig :=
  { BASE_URL := jsOr (env "VUE_APP_API_BASE_URL") "http://localhost:8000"
    TIMEOUT := 30000
    IMAGE_ANALYSIS_TIMEOUT := 60000 }

/-- `export const UPLOAD_CONFIG` (index.js, lines 11-15). -/
def UPLOAD_CONFIG : UploadConfig :=
  { MAX_SIZE := 10 * 1024 * 1024
    ACCEPTED_TYPES := ["image/jpeg", "image/png", "image/gif"]
    ACCEPTED_EXTENSIONS := [".jpg", ".jpeg", ".png", ".gif"] }

/-- `export const ANALYSIS_CONFIG` (index.js, lines 18-22). The literal `0.5`
is a dyadic rational, so its double value is the rational `0.5` itself. -/
def ANALYSIS_CONFIG : AnalysisConfig :=
  { DEFAULT_CONFIDENCE_THRESHOLD := 0.5
    DEFAULT_ANALYSIS_TYPE := "full"
    PROGRESS_UPDATE_INTERVAL := 1000 }

/-- `export const UI_CONFIG` (index.js, lines 25-37). -/
def UI_CONFIG : UiConfig :=
  { ENTITY_TYPE_COLORS :=
      [ ("insect", "#f56c6c"),
        ("tree", "#67c23a"),
        ("disease_symptom", "#e6a23c"),
        ("environment", "#409eff") ]
    RISK_LEVEL_COLORS :=
      [ ("high", "#f56c6c"),
        ("medium", "#e6a23c"),
        ("low", "#67c23a") ] }

/-- A value bound to a field of the default export: one of the four groups. -/
inductive ExportValue where
  | api (c : ApiConfig)
  | upload (c : UploadConfig)
  | analysis (c : AnalysisConfig)
  | ui (c : UiConfig)
  deriving DecidableEq, Repr

/-- `export default { API_CONFIG, UPLOAD_CONFIG, ANALYSIS_CONFIG, UI_CONFIG }`
(index.js, lines 39-44): shorthand properties, each bound to the constant of
the same name. -/
def defaultExport (env : ProcessEnv) : List (String × ExportValue) :=
  [ ("API_CONFIG", ExportValue.api (API_CONFIG env)),
    ("UPLOAD_CONFIG", ExportValue.upload UPLOAD_CONFIG),
    ("ANALYSIS_CONFIG", ExportValue.analysis ANALYSIS_CONFIG),
    ("UI_CONFIG", ExportValue.ui UI_CONFIG) ]

/-! ## `src/ui/vue.config.js` -/

/-- One entry of `devServer.proxy`. -/
structure ProxyRule where
  target : String
  changeOrigin : Bool
  secure : Bool
  deriving DecidableEq, Repr

/-- The object `devServer`. -/
structure DevServer where
  port : Nat
  «open» : Bool
  proxy : List (String × ProxyRule)
  deriving DecidableEq, Repr

/-- The object `configureWebpack.resolve`. -/
structure WebpackResolve where
  «alias» : List (String × String)
  deriving DecidableEq, Repr

/-- The object `configureWebpack`. -/
structure ConfigureWebpack where
  resolve : WebpackResolve
  deriving DecidableEq, Repr

/-- The object passed to `defineConfig`. -/
structure VueConfig where
  transpileDependencies : Bool
  configureWebpack : ConfigureWebpack
  devServer : DevServer
  productionSourceMap : Bool
  deriving DecidableEq, Repr

/-- The helper `defineConfig` of `@vue/cli-service` returns its argument. -/
def defineConfig (c : VueConfig) : VueConfig := c

/-- `module.exports` of vue.config.js (lines 4-31). `pathResolve` is Node's
`path.resolve` and `dirname` is `__dirname`; both come from the host. -/
def vueConfig (pathResolve : String → String → String) (dirname : String)
    (env : ProcessEnv) : VueConfig :=
  defineConfig
    { transpileDependencies := true
      configureWebpack :=
        { resolve := { «alias» := [("@", pathResolve dirname "src")] } }
      devServer :=
        { port := 8080
          «open» := true
          proxy :=
            [ ("/api",
                { target := jsOr (env "VUE_APP_API_BASE_URL") "http://localhost:8000"
                  changeOrigin := true
                  secure := false }) ] }
      productionSourceMap := false }

/-- The proxy target for a path prefix that is an own key of the proxy table:
`devServer.proxy[prefix].target`. -/
def proxyTarget (c : VueConfig) (pfx : String) : Option String :=
  (getOwnProp c.devServer.proxy pfx).map ProxyRule.target

/-- An environment in which only `VUE_APP_API_BASE_URL` may be bound. -/
def envWith (v : Option String) : ProcessEnv :=
  fun k => if k = "VUE_APP_API_BASE_URL" then v else none

/-! ## Specification-side vocabulary -/

/-- The standard extension-to-MIME mapping the upload invariant is stated
with (it is part of the specification, not of the source): `.jpg` and `.jpeg`
name `image/jpeg`, `.png` names `image/png`, `.gif` names `image/gif`. -/
def standardMimeOfExtension (ext : String) : Option String :=
  if ext = ".jpg" ∨ ext = ".jpeg" then some "image/jpeg"
  else if ext = ".png" then some "image/png"
  else if ext = ".gif" then some "image/gif"
  else none

/-- A hexadecimal digit. -/
def isHexDigit (c : Char) : Bool :=
  ('0' ≤ c && c ≤ '9') || ('a' ≤ c && c ≤ 'f') || ('A' ≤ c && c ≤ 'F')

/-- A colour string of the form `#rrggbb`. -/
def isColorString (s : String) : Bool :=
  match s.data with
  | '#' :: ds => ds.length == 6 && ds.all isHexDigit
  | _ => false

/-! ## Theorems -/

/-- C1: whenever `VUE_APP_API_BASE_URL` is set to a non-empty string `s`,
`API_CONFIG.BASE_URL` is exactly `s`, the dev-server proxy target for `/api`
is exactly `s`, and so the two resolved values agree. -/
theorem base_url_override (pathResolve : String → String → String) (dirname : String)
    (env : ProcessEnv) (s : String)
    (hset : env "VUE_APP_API_BASE_URL" = some s) (hne : s ≠ "") :
    (API_CONFIG env).BASE_URL = s ∧
    proxyTarget (vueConfig pathResolve dirname env) "/api" = some s ∧
    proxyTarget (vueConfig pathResolve dirname env) "/api"
      = some (API_CONFIG env).BASE_URL := by
  simp [API_CONFIG, proxyTarget, vueConfig, defineConfig, getOwnProp, jsOr, truthy, hset, hne]

/-- Witness for C1: the override `https://api.example.com:9000`. -/
theorem base_url_override_witness :
    (API_CONFIG (envWith (some "https://api.example.com:9000"))).BASE_URL
      = "https://api.example.com:9000" ∧
    proxyTarget (vueConfig (fun a b => a ++ "/" ++ b) "/home/ui"
        (envWith (some "https://api.example.com:9000"))) "/api"
      = some "https://api.example.com:9000" ∧
    proxyTarget (vueConfig (fun a b => a ++ "/" ++ b) "/home/ui"
        (envWith (some "https://api.example.com:9000"))) "/api"
      = some (API_CONFIG (envWith (some "https://api.example.com:9000"))).BASE_URL :=
  base_url_override (fun a b => a ++ "/" ++ b) "/home/ui"
    (envWith (some "https://api.example.com:9000")) "https://api.example.com:9000"
    (by decide) (by decide)

/-- C2: the resolution of the base URL is total, yielding one string for the
application configuration and the proxy target in every environment, and when
`VUE_APP_API_BASE_URL` is unset or empty that string is the literal
`http://localhost:8000`. -/
theorem base_url_default (pathResolve : String → String → String) (dirname : String)
    (env : ProcessEnv) :
    (∃ u : String, (API_CONFIG env).BASE_URL = u ∧
      proxyTarget (vueConfig pathResolve dirname env) "/api" = some u) ∧
    ((env "VUE_APP_API_BASE_URL" = none ∨ env "VUE_APP_API_BASE_URL" = some "") →
      (API_CONFIG env).BASE_URL = "http://localhost:8000" ∧
      proxyTarget (vueConfig pathResolve dirname env) "/api"
        = some "http://localhost:8000") := by
  refine ⟨⟨_, rfl, ?_⟩, ?_⟩
  · simp [API_CONFIG, proxyTarget, vueConfig, defineConfig, getOwnProp]
  · rintro (h | h) <;>
      simp [API_CONFIG, proxyTarget, vueConfig, defineConfig, getOwnProp, jsOr, truthy, h]

/-- Witness for C2: the variable unset, and the variable set to the empty string. -/
theorem base_url_default_witness :
    ((API_CONFIG (envWith none)).BASE_URL = "http://localhost:8000" ∧
      proxyTarget (vueConfig (fun a b => a ++ "/" ++ b) "/home/ui" (envWith none)) "/api"
        = some "http://localhost:8000") ∧
    ((API_CONFIG (envWith (some ""))).BASE_URL = "http://localhost:8000" ∧
      proxyTarget (vueConfig (fun a b => a ++ "/" ++ b) "/home/ui" (envWith (some ""))) "/api"
        = some "http://localhost:8000") :=
  ⟨(base_url_default (fun a b => a ++ "/" ++ b) "/home/ui" (envWith none)).2
      (Or.inl (by decide)),
   (base_url_default (fun a b => a ++ "/" ++ b) "/home/ui" (envWith (some ""))).2
      (Or.inr (by decide))⟩

/-- C3 as stated fails: the extension list does not have three entries, and
its second entry `.jpeg` does not name the format of the second MIME type
`image/png`. -/
theorem accepted_lists_not_three_each :
    ¬ (UPLOAD_CONFIG.ACCEPTED_TYPES.length = 3 ∧
       UPLOAD_CONFIG.ACCEPTED_EXTENSIONS.length = 3 ∧
       ∀ i, i < 3 →
         (UPLOAD_CONFIG.ACCEPTED_EXTENSIONS.get? i).bind standardMimeOfExtension
           = UPLOAD_CONFIG.ACCEPTED_TYPES.get? i) := by
  decide

/-- C3, amended: `ACCEPTED_TYPES` has exactly the three entries `image/jpeg`,
`image/png`, `image/gif`; `ACCEPTED_EXTENSIONS` has exactly the four entries
`.jpg`, `.jpeg`, `.png`, `.gif`; the correspondence is fixed and many-to-one:
the first two extensions name the format of the first MIME type, the third
that of the second and the fourth that of the third. -/
theorem accepted_lists_correspondence :
    UPLOAD_CONFIG.ACCEPTED_TYPES = ["image/jpeg", "image/png", "image/gif"] ∧
    UPLOAD_CONFIG.ACCEPTED_TYPES.length = 3 ∧
    UPLOAD_CONFIG.ACCEPTED_EXTENSIONS = [".jpg", ".jpeg", ".png", ".gif"] ∧
    UPLOAD_CONFIG.ACCEPTED_EXTENSIONS.length = 4 ∧
    UPLOAD_CONFIG.ACCEPTED_EXTENSIONS.map standardMimeOfExtension
      = [UPLOAD_CONFIG.ACCEPTED_TYPES.get? 0, UPLOAD_CONFIG.ACCEPTED_TYPES.get? 0,
         UPLOAD_CONFIG.ACCEPTED_TYPES.get? 1, UPLOAD_CONFIG.ACCEPTED_TYPES.get? 2] := by
  decide

/-- C4: `UPLOAD_CONFIG.MAX_SIZE` is exactly 10 × 1024 × 1024 = 10485760 bytes. -/
theorem max_size_exact :
    UPLOAD_CONFIG.MAX_SIZE = 10 * 1024 * 1024 ∧ UPLOAD_CONFIG.MAX_SIZE = 10485760 := by
  decide

/-- C5: the default confidence threshold is 1/2 and lies in [0, 1], and the
default analysis type is the string `full`. -/
theorem analysis_defaults :
    ANALYSIS_CONFIG.DEFAULT_CONFIDENCE_THRESHOLD = 1 / 2 ∧
    0 ≤ ANALYSIS_CONFIG.DEFAULT_CONFIDENCE_THRESHOLD ∧
    ANALYSIS_CONFIG.DEFAULT_CONFIDENCE_THRESHOLD ≤ 1 ∧
    ANALYSIS_CONFIG.DEFAULT_ANALYSIS_TYPE = "full" := by
  refine ⟨?_, ?_, ?_, rfl⟩ <;> simp only [ANALYSIS_CONFIG] <;> norm_num

/-- C6: looking up each entity kind (insect, tree, disease_symptom,
environment) in `ENTITY_TYPE_COLORS`, and each risk level (high, medium, low)
in `RISK_LEVEL_COLORS`, returns a defined colour string, and these are exactly
the keys of the two maps. Nothing is said about any other key. -/
theorem color_maps_defined_on_their_keys :
    (["insect", "tree", "disease_symptom", "environment"].map
        (getOwnProp UI_CONFIG.ENTITY_TYPE_COLORS)
      = [some "#f56c6c", some "#67c23a", some "#e6a23c", some "#409eff"]) ∧
    (["high", "medium", "low"].map (getOwnProp UI_CONFIG.RISK_LEVEL_COLORS)
      = [some "#f56c6c", some "#e6a23c", some "#67c23a"]) ∧
    keys UI_CONFIG.ENTITY_TYPE_COLORS
      = ["insect", "tree", "disease_symptom", "environment"] ∧
    keys UI_CONFIG.RISK_LEVEL_COLORS = ["high", "medium", "low"] ∧
    ((["insect", "tree", "disease_symptom", "environment"].map
        (getOwnProp UI_CONFIG.ENTITY_TYPE_COLORS)).all
      (fun r => r.any isColorString) = true) ∧
    ((["high", "medium", "low"].map (getOwnProp UI_CONFIG.RISK_LEVEL_COLORS)).all
      (fun r => r.any isColorString) = true) := by
  refine ⟨by decide, by decide, by decide, by decide, by decide, by decide⟩

/-- C7: in every environment the default export has exactly the four fields
`API_CONFIG`, `UPLOAD_CONFIG`, `ANALYSIS_CONFIG`, `UI_CONFIG`, each bound to the
named export of the same name; in particular the base URL read through the
default export is the named `API_CONFIG.BASE_URL`. -/
theorem default_export_bundles_named_exports (env : ProcessEnv) :
    keys (defaultExport env)
      = ["API_CONFIG", "UPLOAD_CONFIG", "ANALYSIS_CONFIG", "UI_CONFIG"] ∧
    (defaultExport env).length = 4 ∧
    getOwnProp (defaultExport env) "API_CONFIG" = some (ExportValue.api (API_CONFIG env)) ∧
    getOwnProp (defaultExport env) "UPLOAD_CONFIG" = some (ExportValue.upload UPLOAD_CONFIG) ∧
    getOwnProp (defaultExport env) "ANALYSIS_CONFIG"
      = some (ExportValue.analysis ANALYSIS_CONFIG) ∧
    getOwnProp (defaultExport env) "UI_CONFIG" = some (ExportValue.ui UI_CONFIG) ∧
    (∃ c : ApiConfig, getOwnProp (defaultExport env) "API_CONFIG" = some (ExportValue.api c) ∧
      c.BASE_URL = (API_CONFIG env).BASE_URL) := by
  refine ⟨rfl, rfl, ?_, ?_, ?_, ?_, ⟨API_CONFIG env, ?_, rfl⟩⟩ <;>
    simp [defaultExport, getOwnProp]

/-- C8: the descriptor declares port 8080, auto-open true, a proxy table with
exactly the one rule `/api` with `changeOrigin` true and `secure` false, and
`productionSourceMap` false, in every environment; two environments that give
the same proxy target give the same descriptor, and the target does vary with
the environment. -/
theorem dev_server_descriptor (pathResolve : String → String → String) (dirname : String) :
    (∀ env : ProcessEnv,
      (vueConfig pathResolve dirname env).devServer.port = 8080 ∧
      (vueConfig pathResolve dirname env).devServer.«open» = true ∧
      keys (vueConfig pathResolve dirname env).devServer.proxy = ["/api"] ∧
      (∃ r : ProxyRule,
        getOwnProp (vueConfig pathResolve dirname env).devServer.proxy "/api" = some r ∧
        r.changeOrigin = true ∧ r.secure = false) ∧
      (vueConfig pathResolve dirname env).productionSourceMap = false) ∧
    (∀ env₁ env₂ : ProcessEnv,
      proxyTarget (vueConfig pathResolve dirname env₁) "/api"
        = proxyTarget (vueConfig pathResolve dirname env₂) "/api" →
      vueConfig pathResolve dirname env₁ = vueConfig pathResolve dirname env₂) ∧
    (∃ env₁ env₂ : ProcessEnv,
      proxyTarget (vueConfig pathResolve dirname env₁) "/api"
        ≠ proxyTarget (vueConfig pathResolve dirname env₂) "/api") := by
  refine ⟨fun env => ⟨rfl, rfl, rfl, ?_, rfl⟩, ?_, ?_⟩
  · simp [vueConfig, defineConfig, getOwnProp]
  · intro env₁ env₂ h
    simp only [proxyTarget, vueConfig, defineConfig, getOwnProp, if_true, Option.map_some',
      Option.some.injEq] at h
    simp only [vueConfig, defineConfig, h]
  · refine ⟨envWith none, envWith (some "http://backend:9000"), ?_⟩
    simp only [proxyTarget, vueConfig, defineConfig, getOwnProp, if_true, Option.map_some']
    decide

/-- C9: both API timeouts are positive numbers of milliseconds, 30000 and
60000, and the image-analysis timeout is strictly the longer one. -/
theorem timeouts_ordered (env : ProcessEnv) :
    0 < (API_CONFIG env).TIMEOUT ∧
    (API_CONFIG env).TIMEOUT < (API_CONFIG env).IMAGE_ANALYSIS_TIMEOUT ∧
    (API_CONFIG env).TIMEOUT = 30000 ∧
    (API_CONFIG env).IMAGE_ANALYSIS_TIMEOUT = 60000 := by
  simp [API_CONFIG]

/-- C10: under the standard mapping every accepted extension maps to an
accepted MIME type, every accepted MIME type is the image of at least one
accepted extension, and neither list has a duplicate. -/
theorem upload_lists_same_formats :
    (∀ e ∈ UPLOAD_CONFIG.ACCEPTED_EXTENSIONS,
      ∃ t ∈ UPLOAD_CONFIG.ACCEPTED_TYPES, standardMimeOfExtension e = some t) ∧
    (∀ t ∈ UPLOAD_CONFIG.ACCEPTED_TYPES,
      ∃ e ∈ UPLOAD_CONFIG.ACCEPTED_EXTENSIONS, standardMimeOfExtension e = some t) ∧
    UPLOAD_CONFIG.ACCEPTED_TYPES.Nodup ∧
    UPLOAD_CONFIG.ACCEPTED_EXTENSIONS.Nodup := by
  decide

end KEFinalWork
